import Mathlib

/-!
Shallow embedding of the alert persistence and detection core of the
SafeTrack dashboard (src/lib/alert-storage.ts and the detector in
src/app/page.tsx).

Modelling conventions:
* `localStorage` holds two JSON blobs (active and archived alert lists);
  we model the persisted state as a `Store` record with the two
  deserialized collections, and each operation as a function
  `... → Store → result × Store` (the boolean / count the TS method
  returns, paired with the updated state).
* Storage reads and writes are modelled on their non-throwing path
  (reads succeed, writes succeed), except `deleteAlert`, whose contract
  under scrutiny concerns write failure: it takes an explicit
  `writeOk` flag standing for "the setItem call did not throw".
* JS numbers that the code only carries around (latitude, longitude)
  or compares with integer literals (heartbeat) are modelled as `Int`.
* ISO-8601 timestamps stay `String`s; the one place the code parses
  them (`cleanupOldAlerts` via `new Date(...)`) is parametrized by a
  parse function `parseTs : String → Int` (epoch milliseconds) and by
  the already-computed `cutoff` (the code derives it from the clock:
  now minus `daysToKeep` days).
-/

/-- Severity levels, the TS union "LOW" | "MEDIUM" | "HIGH" | "CRITICAL". -/
inductive Severity where
  | low
  | medium
  | high
  | critical
deriving DecidableEq, Repr

/-- Alert status, the TS union "PANIC" | "FALL". -/
inductive AlertStatus where
  | panic
  | fall
deriving DecidableEq, Repr

/-- The AlertData interface of src/lib/alert-storage.ts. The optional TS
fields `archived?` and `severity?` become `Option`s (`none` = absent). -/
structure AlertData where
  id : String
  deviceId : String
  timestamp : String
  location : String
  latitude : Int
  longitude : Int
  status : AlertStatus
  heartbeat : Int
  coordinates : String
  emailSent : Bool
  archived : Option Bool := none
  severity : Option Severity := none
deriving DecidableEq, Repr

/-- The persisted alert state: the deserialized contents of the
`safetrack_critical_alerts` and `safetrack_archived_alerts` keys. -/
structure Store where
  active : List AlertData
  archived : List AlertData
deriving DecidableEq, Repr

/-- Fresh storage: both keys absent, both collections deserialize to []. -/
def emptyStore : Store := ⟨[], []⟩

/-- MAX_ACTIVE_ALERTS in AlertStorageManager. -/
def MAX_ACTIVE_ALERTS : Nat := 1000

/-- MAX_ARCHIVED_ALERTS in AlertStorageManager. -/
def MAX_ARCHIVED_ALERTS : Nat := 5000

/-- classifyAlertSeverity: heartbeat > 120 CRITICAL, > 100 HIGH,
> 90 MEDIUM, else LOW. -/
def classifyAlertSeverity (alert : AlertData) : Severity :=
  if alert.heartbeat > 120 then .critical
  else if alert.heartbeat > 100 then .high
  else if alert.heartbeat > 90 then .medium
  else .low

/-- The spread `{ ...alert, archived: true }` applied by archiveAlerts
to each input record. -/
def markArchived (alert : AlertData) : AlertData :=
  { alert with archived := some true }

/-- archiveAlerts: prepends the inputs (each marked archived) to the
existing archive and truncates to MAX_ARCHIVED_ALERTS
(`updatedArchived.slice(0, MAX_ARCHIVED_ALERTS)`). Returns true. -/
def archiveAlerts (alerts : List AlertData) (s : Store) : Bool × Store :=
  let existingArchived := s.archived
  let updatedArchived := alerts.map markArchived ++ existingArchived
  let limitedArchived := updatedArchived.take MAX_ARCHIVED_ALERTS
  (true, { s with archived := limitedArchived })

/-- saveAlert: rejects when some existing active record has the same id
(string equality), else sets `severity` on the candidate, prepends it,
and if the active list now exceeds MAX_ACTIVE_ALERTS moves the slice
beyond the cap (`updatedAlerts.slice(MAX_ACTIVE_ALERTS)`) to the
archive and keeps `updatedAlerts.slice(0, MAX_ACTIVE_ALERTS)`. -/
def saveAlert (alert : AlertData) (s : Store) : Bool × Store :=
  let existingAlerts := s.active
  if existingAlerts.any (fun existing => existing.id == alert.id) then
    (false, s)
  else
    let alert' := { alert with severity := some (classifyAlertSeverity alert) }
    let updatedAlerts := alert' :: existingAlerts
    if updatedAlerts.length > MAX_ACTIVE_ALERTS then
      let alertsToArchive := updatedAlerts.drop MAX_ACTIVE_ALERTS
      let s1 := (archiveAlerts alertsToArchive s).2
      (true, { s1 with active := updatedAlerts.take MAX_ACTIVE_ALERTS })
    else
      (true, { s with active := updatedAlerts })

/-- deleteAlert: filters the active collection by `alert.id !== alertId`
and writes it back. `writeOk` models whether the setItem call succeeds;
when it throws, the catch block returns false with storage untouched.
The archive is never consulted. -/
def deleteAlert (alertId : String) (writeOk : Bool) (s : Store) : Bool × Store :=
  let alerts := s.active
  let updatedAlerts := alerts.filter (fun alert => alert.id != alertId)
  if writeOk then
    (true, { s with active := updatedAlerts })
  else
    (false, s)

/-- clearAllAlerts: removes the active key; subsequent reads give []. -/
def clearAllAlerts (s : Store) : Bool × Store :=
  (true, { s with active := [] })

/-- clearArchivedAlerts: removes the archived key. -/
def clearArchivedAlerts (s : Store) : Bool × Store :=
  (true, { s with archived := [] })

/-- Mutation `alerts[alertIndex].emailSent = true` at a given index. -/
def setEmailSentAt : List AlertData → Nat → List AlertData
  | [], _ => []
  | a :: as, 0 => { a with emailSent := true } :: as
  | a :: as, n + 1 => a :: setEmailSentAt as n

/-- markEmailSent: findIndex by id over the active collection; -1 gives
false with no write, otherwise flips emailSent at that index and
persists. -/
def markEmailSent (alertId : String) (s : Store) : Bool × Store :=
  let alerts := s.active
  match alerts.findIdx? (fun alert => alert.id == alertId) with
  | none => (false, s)
  | some alertIndex => (true, { s with active := setEmailSentAt alerts alertIndex })

/-- cleanupOldAlerts: keeps active records with
`new Date(alert.timestamp) >= cutoffDate`, archives those strictly
before the cutoff (only writing when the latter set is nonempty), and
returns the archived count. `parseTs` stands for `new Date(string)` as
epoch milliseconds; `cutoff` is the precomputed cutoff instant (now
minus daysToKeep days). -/
def cleanupOldAlerts (parseTs : String → Int) (cutoff : Int) (s : Store) : Nat × Store :=
  let alerts := s.active
  let alertsToKeep := alerts.filter (fun alert => parseTs alert.timestamp ≥ cutoff)
  let alertsToArchive := alerts.filter (fun alert => parseTs alert.timestamp < cutoff)
  if alertsToArchive.length > 0 then
    let s1 := (archiveAlerts alertsToArchive s).2
    (alertsToArchive.length, { s1 with active := alertsToKeep })
  else
    (alertsToArchive.length, s)

/-- An import document after JSON.parse. `unparseable` is a string
JSON.parse throws on (the catch path). For a parsed document, a field
is `some l` exactly when it is present and `Array.isArray` holds
(importAlerts tests `importData.activeAlerts && Array.isArray(...)`;
arrays, including empty ones, are truthy); `none` covers an absent,
falsy, or non-array field. The export date and stats fields the
document can also carry are never read by importAlerts; exportDate is
kept for fidelity to the export shape. -/
inductive ImportDoc where
  | unparseable
  | parsed (exportDate : String) (activeAlerts : Option (List AlertData))
      (archivedAlerts : Option (List AlertData))
deriving DecidableEq, Repr

/-- exportAlerts: a pure read producing the export document; the
archive is included only when requested, else serialized as []. The
stats summary it also embeds is ignored by importAlerts and omitted
here (its byte-size component is environment-dependent). -/
def exportAlerts (includeArchived : Bool) (exportDate : String) (s : Store) : ImportDoc :=
  let activeAlerts := s.active
  let archivedAlerts := if includeArchived then s.archived else []
  .parsed exportDate (some activeAlerts) (some archivedAlerts)

/-- importAlerts: returns false only when JSON.parse throws; otherwise
each collection present as an array wholesale-replaces the persisted
one, and the call returns true even when neither field is well-formed. -/
def importAlerts (doc : ImportDoc) (s : Store) : Bool × Store :=
  match doc with
  | .unparseable => (false, s)
  | .parsed _ activeAlerts archivedAlerts =>
    let s1 := match activeAlerts with
      | some l => { s with active := l }
      | none => s
    let s2 := match archivedAlerts with
      | some l => { s1 with archived := l }
      | none => s1
    (true, s2)

/-- The DeviceData interface of src/types/device-data.ts. -/
structure DeviceData where
  id : String
  timestamp : String
  location : String
  latitude : Int
  longitude : Int
  panicstatus : Bool
  fallstatus : Bool
  heartbeat : Int
deriving DecidableEq, Repr

/-- The AlertData literal built by detectCriticalAlerts for a critical
device reading. -/
def buildAlert (device : DeviceData) : AlertData :=
  { id := device.id ++ "-" ++ device.timestamp
    deviceId := device.id
    timestamp := device.timestamp
    location := device.location
    latitude := device.latitude
    longitude := device.longitude
    status := if device.panicstatus then .panic else .fall
    heartbeat := device.heartbeat
    coordinates := toString device.latitude ++ ", " ++ toString device.longitude
    emailSent := false
    archived := none
    severity := none }

/-- detectCriticalAlerts (src/app/page.tsx): for each device in the
batch, in order, evaluates
`isCritical = (panicstatus || fallstatus) && heartbeat > 90`; when
critical it re-reads the current active collection, skips the device if
a record with id `deviceId + "-" + timestamp` exists, otherwise builds
the alert and submits it via saveAlert, collecting it into the
newAlerts accumulator when the save reports success. In the source the
pushed object is the very object saveAlert mutated in place
(`alert.severity = classifyAlertSeverity(alert)`), so the accumulated
record carries the computed severity. Returns the new alerts in batch
order together with the resulting store state. -/
def detectCriticalAlerts (devices : List DeviceData) (s : Store) : List AlertData × Store :=
  match devices with
  | [] => ([], s)
  | device :: rest =>
    let isCritical := (device.panicstatus || device.fallstatus) && device.heartbeat > 90
    if isCritical then
      let alertId := device.id ++ "-" ++ device.timestamp
      match s.active.find? (fun alert => alert.id == alertId) with
      | some _ => detectCriticalAlerts rest s
      | none =>
        let alert := buildAlert device
        let (saved, s1) := saveAlert alert s
        let alert' := { alert with severity := some (classifyAlertSeverity alert) }
        let (newAlerts, s2) := detectCriticalAlerts rest s1
        (if saved then alert' :: newAlerts else newAlerts, s2)
    else
      detectCriticalAlerts rest s

/-- One client-visible mutation of the store, as named by the spec:
submit, archive, delete, cleanup, markEmailSent, clear (both clears).
The cleanup constructor carries the timestamp parse function and the
cutoff instant, the delete constructor the write outcome. -/
inductive StoreOp where
  | save (alert : AlertData)
  | archive (alerts : List AlertData)
  | delete (alertId : String) (writeOk : Bool)
  | cleanup (parseTs : String → Int) (cutoff : Int)
  | markEmail (alertId : String)
  | clearActive
  | clearArchived

/-- State transition of a single store operation (the Store component
of the corresponding method's result). -/
def applyOp (op : StoreOp) (s : Store) : Store :=
  match op with
  | .save alert => (saveAlert alert s).2
  | .archive alerts => (archiveAlerts alerts s).2
  | .delete alertId writeOk => (deleteAlert alertId writeOk s).2
  | .cleanup parseTs cutoff => (cleanupOldAlerts parseTs cutoff s).2
  | .markEmail alertId => (markEmailSent alertId s).2
  | .clearActive => (clearAllAlerts s).2
  | .clearArchived => (clearArchivedAlerts s).2

/-- Sequential execution of store operations. -/
def runOps : List StoreOp → Store → Store
  | [], s => s
  | op :: ops, s => runOps ops (applyOp op s)

/-! Helper lemmas. -/

/-- setEmailSentAt changes only the emailSent field of one record: any
projection that ignores emailSent is preserved pointwise. -/
theorem setEmailSentAt_map {α : Type} (f : AlertData → α)
    (hf : ∀ r, f { r with emailSent := true } = f r) :
    ∀ (l : List AlertData) (n : Nat), (setEmailSentAt l n).map f = l.map f := by
  intro l
  induction l with
  | nil => intro n; rfl
  | cons a as ih =>
    intro n
    cases n with
    | zero => simp [setEmailSentAt, hf]
    | succ m => simp [setEmailSentAt, ih]

/-- Membership in setEmailSentAt comes from a record of the input list
agreeing on id, heartbeat and severity. -/
theorem setEmailSentAt_mem {r : AlertData} :
    ∀ {l : List AlertData} {n : Nat}, r ∈ setEmailSentAt l n →
      ∃ r0 ∈ l, r0.id = r.id ∧ r0.heartbeat = r.heartbeat ∧ r0.severity = r.severity := by
  intro l
  induction l with
  | nil => intro n h; simp [setEmailSentAt] at h
  | cons a as ih =>
    intro n h
    cases n with
    | zero =>
      simp only [setEmailSentAt, List.mem_cons] at h
      rcases h with h | h
      · exact ⟨a, List.mem_cons_self a as, by simp [h]⟩
      · exact ⟨r, List.mem_cons_of_mem a h, rfl, rfl, rfl⟩
    | succ m =>
      simp only [setEmailSentAt, List.mem_cons] at h
      rcases h with h | h
      · exact ⟨a, List.mem_cons_self a as, by simp [h]⟩
      · obtain ⟨r0, hr0, hids⟩ := ih h
        exact ⟨r0, List.mem_cons_of_mem a hr0, hids⟩

/-! Theorems settling the claims. -/

/-- C5: archive (archiveAlerts) marks each input record archived=true,
prepends the marked inputs to the existing archive, truncates the
result to the archive cap MAX_ARCHIVED_ALERTS and persists it, leaving
the active collection untouched; the dropped suffix beyond the cap is
exactly the tail (oldest entries) of the pre-truncation list. -/
theorem archiveAlerts_marks_prepends_truncates (alerts : List AlertData) (s : Store) :
    archiveAlerts alerts s =
      (true, { s with
        archived := (alerts.map markArchived ++ s.archived).take MAX_ARCHIVED_ALERTS }) ∧
    (archiveAlerts alerts s).2.active = s.active ∧
    (archiveAlerts alerts s).2.archived.length ≤ MAX_ARCHIVED_ALERTS ∧
    (archiveAlerts alerts s).2.archived
        ++ (alerts.map markArchived ++ s.archived).drop MAX_ARCHIVED_ALERTS
      = alerts.map markArchived ++ s.archived := by
  refine ⟨rfl, rfl, ?_, ?_⟩
  · simp [archiveAlerts]
  · simp [archiveAlerts]

/-- C8: importing the document produced by exportAlerts with
includeArchived = true restores exactly the same active and archived
collections (same records, order and fields), with import returning
true. -/
theorem export_import_round_trip (exportDate : String) (s : Store) :
    importAlerts (exportAlerts true exportDate s) s = (true, s) := by
  simp [importAlerts, exportAlerts]

/-- C9 counterexample: a parseable document containing no well-formed
active or archived collection is not rejected — importAlerts returns
true (not false as the claim states), though the collections are left
untouched. -/
theorem importAlerts_malformed_returns_true :
    (importAlerts (.parsed "2024-01-01T00:00:00.000Z" none none) emptyStore).1 = true ∧
    ¬ (importAlerts (.parsed "2024-01-01T00:00:00.000Z" none none) emptyStore).1 = false := by
  exact ⟨rfl, by simp [importAlerts]⟩

/-- C9 amended: importAlerts returns false (leaving both collections
untouched) only for a document JSON.parse throws on; a parseable
document replaces exactly the collections present as well-formed
sequences — a field that is absent or not a sequence leaves its
collection untouched but the call still returns true. -/
theorem importAlerts_replace_semantics :
    (∀ s : Store, importAlerts .unparseable s = (false, s)) ∧
    (∀ (exportDate : String) (activeAlerts archivedAlerts : Option (List AlertData)) (s : Store),
      importAlerts (.parsed exportDate activeAlerts archivedAlerts) s =
        (true, ⟨activeAlerts.getD s.active, archivedAlerts.getD s.archived⟩)) := by
  constructor
  · intro s; rfl
  · intro exportDate activeAlerts archivedAlerts s
    cases activeAlerts <;> cases archivedAlerts <;> rfl

/-- C10: deleteAlert never reports a missing id: for an alertId
matching no active record it rewrites the active collection unchanged
and returns true; its result is false exactly when the underlying
storage write fails. -/
theorem deleteAlert_missing_id (alertId : String) (writeOk : Bool) (s : Store)
    (hmiss : s.active.any (fun alert => alert.id == alertId) = false) :
    deleteAlert alertId true s = (true, s) ∧
    ((deleteAlert alertId writeOk s).1 = false ↔ writeOk = false) := by
  constructor
  · have hall : ∀ alert ∈ s.active, (alert.id != alertId) = true := by
      intro alert hmem
      have := (List.any_eq_false.mp hmiss) alert hmem
      simp only [bne_iff_ne, ne_eq]
      simpa using this
    simp [deleteAlert, List.filter_eq_self.mpr hall]
  · cases writeOk <;> simp [deleteAlert]

/-- Witness record used to instantiate hypotheses of the claim theorems. -/
def wAlert : AlertData :=
  { id := "dev1-2024-01-01T00:00:00.000Z"
    deviceId := "dev1"
    timestamp := "2024-01-01T00:00:00.000Z"
    location := "ward 3"
    latitude := 12
    longitude := 77
    status := .fall
    heartbeat := 95
    coordinates := "12, 77"
    emailSent := false }

/-- Witness for C10 at a concrete store holding one record whose id
differs from the deleted one. -/
theorem deleteAlert_missing_id_witness :
    (Store.mk [wAlert] []).active.any (fun alert => alert.id == "other-id") = false ∧
    (deleteAlert "other-id" true ⟨[wAlert], []⟩ = (true, ⟨[wAlert], []⟩) ∧
      ((deleteAlert "other-id" false ⟨[wAlert], []⟩).1 = false ↔ (false : Bool) = false)) := by
  exact ⟨by decide, deleteAlert_missing_id "other-id" false ⟨[wAlert], []⟩ (by decide)⟩

/-- C7: cleanupOldAlerts partitions the active collection against the
cutoff: records strictly older than the cutoff are all moved to the
archive (marked archived=true, prepended, archive cap applied), records
at or after the cutoff all remain active, and the returned count is the
number moved; an immediately repeated call, with no further records
older than the cutoff, returns 0. -/
theorem cleanupOldAlerts_partitions (parseTs : String → Int) (cutoff : Int) (s : Store) :
    cleanupOldAlerts parseTs cutoff s =
      ((s.active.filter (fun alert => parseTs alert.timestamp < cutoff)).length,
       { active := s.active.filter (fun alert => parseTs alert.timestamp ≥ cutoff),
         archived :=
           if (s.active.filter (fun alert => parseTs alert.timestamp < cutoff)).length = 0 then
             s.archived
           else
             ((s.active.filter (fun alert => parseTs alert.timestamp < cutoff)).map markArchived
               ++ s.archived).take MAX_ARCHIVED_ALERTS }) ∧
    (cleanupOldAlerts parseTs cutoff (cleanupOldAlerts parseTs cutoff s).2).1 = 0 := by
  have hsplit : ∀ t : Store,
      cleanupOldAlerts parseTs cutoff t =
        ((t.active.filter (fun alert => parseTs alert.timestamp < cutoff)).length,
         { active := t.active.filter (fun alert => parseTs alert.timestamp ≥ cutoff),
           archived :=
             if (t.active.filter (fun alert => parseTs alert.timestamp < cutoff)).length = 0 then
               t.archived
             else
               ((t.active.filter (fun alert => parseTs alert.timestamp < cutoff)).map markArchived
                 ++ t.archived).take MAX_ARCHIVED_ALERTS }) := by
    intro t
    by_cases h : (t.active.filter (fun alert => parseTs alert.timestamp < cutoff)).length = 0
    · have hnil : t.active.filter (fun alert => parseTs alert.timestamp < cutoff) = [] :=
        List.length_eq_zero.mp h
      have hkeep : t.active.filter (fun alert => parseTs alert.timestamp ≥ cutoff) = t.active := by
        refine List.filter_eq_self.mpr ?_
        intro a ha
        have := List.filter_eq_nil_iff.mp hnil a ha
        simp only [decide_eq_true_eq] at this ⊢
        omega
      simp [cleanupOldAlerts, hnil, hkeep]
    · have hpos : (t.active.filter (fun alert => parseTs alert.timestamp < cutoff)).length > 0 :=
        Nat.pos_of_ne_zero h
      simp only [cleanupOldAlerts, archiveAlerts, hpos, if_pos, h, if_neg]
      simp [h]
  refine ⟨hsplit s, ?_⟩
  rw [hsplit s, hsplit _]
  simp only
  have : ((s.active.filter (fun alert => parseTs alert.timestamp ≥ cutoff)).filter
      (fun alert => parseTs alert.timestamp < cutoff)) = [] := by
    rw [List.filter_filter]
    refine List.filter_eq_nil_iff.mpr ?_
    intro a ha
    simp only [Bool.and_eq_true, decide_eq_true_eq, not_and]
    omega
  rw [this]
  rfl

/-- Case analysis of saveAlert: duplicate rejection, plain prepend, or
prepend with overflow archival. -/
theorem saveAlert_cases (alert : AlertData) (s : Store) :
    (s.active.any (fun existing => existing.id == alert.id) = true ∧
      saveAlert alert s = (false, s)) ∨
    (s.active.any (fun existing => existing.id == alert.id) = false ∧
      ((saveAlert alert s =
          (true, { s with active :=
            { alert with severity := some (classifyAlertSeverity alert) } :: s.active }) ∧
          s.active.length + 1 ≤ MAX_ACTIVE_ALERTS) ∨
       (saveAlert alert s =
          (true,
           { active := ({ alert with severity := some (classifyAlertSeverity alert) }
                :: s.active).take MAX_ACTIVE_ALERTS,
             archived := ((({ alert with severity := some (classifyAlertSeverity alert) }
                :: s.active).drop MAX_ACTIVE_ALERTS).map markArchived
                ++ s.archived).take MAX_ARCHIVED_ALERTS }) ∧
          MAX_ACTIVE_ALERTS < s.active.length + 1))) := by
  by_cases hdup : s.active.any (fun existing => existing.id == alert.id) = true
  · exact Or.inl ⟨hdup, by simp [saveAlert, hdup]⟩
  · have hdup' : s.active.any (fun existing => existing.id == alert.id) = false :=
      Bool.not_eq_true _ ▸ Bool.of_not_eq_true hdup
    refine Or.inr ⟨hdup', ?_⟩
    by_cases hlen : ({ alert with severity := some (classifyAlertSeverity alert) }
        :: s.active).length > MAX_ACTIVE_ALERTS
    · refine Or.inr ⟨?_, by simpa using hlen⟩
      simp only [saveAlert]
      rw [if_neg hdup, if_pos hlen]
      rfl
    · refine Or.inl ⟨?_, by simpa using hlen⟩
      simp only [saveAlert]
      rw [if_neg hdup, if_neg hlen]

/-- Case analysis of cleanupOldAlerts: either nothing is old enough and
the state is untouched, or the active collection is replaced by the
kept partition and the old partition goes through archiveAlerts. -/
theorem cleanupOldAlerts_cases (parseTs : String → Int) (cutoff : Int) (s : Store) :
    (cleanupOldAlerts parseTs cutoff s).2 = s ∨
    (cleanupOldAlerts parseTs cutoff s).2 =
      { active := s.active.filter (fun alert => parseTs alert.timestamp ≥ cutoff),
        archived :=
          ((s.active.filter (fun alert => parseTs alert.timestamp < cutoff)).map markArchived
            ++ s.archived).take MAX_ARCHIVED_ALERTS } := by
  by_cases h : (s.active.filter (fun alert => parseTs alert.timestamp < cutoff)).length > 0
  · right; simp [cleanupOldAlerts, archiveAlerts, h]
  · left; simp [cleanupOldAlerts, h]

/-- C1: submitting a candidate whose id equals the id of a record in
the active collection is rejected with no state change; consequently a
second submit of a record with the dedup key of an already accepted one
returns false, leaving exactly one active record with that id. -/
theorem saveAlert_dedup_idempotent :
    (∀ (alert : AlertData) (s : Store),
      s.active.any (fun existing => existing.id == alert.id) = true →
      saveAlert alert s = (false, s)) ∧
    (∀ (a b : AlertData) (s : Store), a.id = b.id →
      s.active.any (fun existing => existing.id == a.id) = false →
      (saveAlert a s).1 = true ∧
      saveAlert b (saveAlert a s).2 = (false, (saveAlert a s).2) ∧
      ((saveAlert a s).2.active.countP (fun r => r.id == a.id)) = 1) := by
  have first : ∀ (alert : AlertData) (s : Store),
      s.active.any (fun existing => existing.id == alert.id) = true →
      saveAlert alert s = (false, s) := by
    intro alert s h
    simp [saveAlert, h]
  refine ⟨first, ?_⟩
  intro a b s hab h
  have key : ∃ l, (saveAlert a s).2.active
        = { a with severity := some (classifyAlertSeverity a) } :: l ∧ l.Sublist s.active ∧
        (saveAlert a s).1 = true := by
    rcases saveAlert_cases a s with ⟨hd, _⟩ | ⟨_, hcase | hcase⟩
    · rw [h] at hd; exact absurd hd (by simp)
    · exact ⟨s.active, by rw [hcase.1], List.Sublist.refl _, by rw [hcase.1]⟩
    · refine ⟨s.active.take 999, ?_, List.take_sublist _ _, by rw [hcase.1]⟩
      rw [hcase.1]
      show ({ a with severity := some (classifyAlertSeverity a) }
          :: s.active).take MAX_ACTIVE_ALERTS = _
      rw [show MAX_ACTIVE_ALERTS = 999 + 1 from rfl, List.take_succ_cons]
  obtain ⟨l, hact, hsub, hfst⟩ := key
  have hany : (saveAlert a s).2.active.any (fun existing => existing.id == b.id) = true := by
    rw [hact]
    simp [← hab]
  refine ⟨hfst, first b _ hany, ?_⟩
  rw [hact, List.countP_cons]
  have h0 : s.active.countP (fun r => r.id == a.id) = 0 :=
    List.countP_eq_zero.mpr (List.any_eq_false.mp h)
  have hl0 : l.countP (fun r => r.id == a.id) = 0 :=
    Nat.le_zero.mp (h0 ▸ hsub.countP_le _)
  simp [hl0]

/-- Witness for C1: from a store already holding wAlert, re-submitting
a record with the same id is rejected with the state unchanged, and a
fresh two-step submit of the same dedup key stores exactly one copy. -/
theorem saveAlert_dedup_idempotent_witness :
    ((Store.mk [wAlert] []).active.any (fun existing => existing.id == wAlert.id) = true ∧
      saveAlert wAlert ⟨[wAlert], []⟩ = (false, ⟨[wAlert], []⟩)) ∧
    (emptyStore.active.any (fun existing => existing.id == wAlert.id) = false ∧
      ((saveAlert wAlert emptyStore).1 = true ∧
        saveAlert wAlert (saveAlert wAlert emptyStore).2 =
          (false, (saveAlert wAlert emptyStore).2) ∧
        ((saveAlert wAlert emptyStore).2.active.countP (fun r => r.id == wAlert.id)) = 1)) := by
  refine ⟨⟨by decide, saveAlert_dedup_idempotent.1 wAlert ⟨[wAlert], []⟩ (by decide)⟩,
    ⟨by decide, saveAlert_dedup_idempotent.2 wAlert wAlert emptyStore rfl (by decide)⟩⟩

/-- A concrete record with a given heartbeat, for exercising the
severity thresholds. -/
def hbAlert (heartbeat : Int) : AlertData :=
  { wAlert with id := "dev2-hb", deviceId := "dev2", heartbeat := heartbeat }

/-- Every record of store `t` keeps the id, heartbeat and severity of a
record of store `s`: no operation mapping `s` to `t` recomputes a
stored severity. -/
def sevPreserved (s t : Store) : Prop :=
  ∀ r ∈ t.active ++ t.archived, ∃ r0 ∈ s.active ++ s.archived,
    r0.id = r.id ∧ r0.heartbeat = r.heartbeat ∧ r0.severity = r.severity

/-- Identity stores trivially preserve severities. -/
theorem sevPreserved_refl (s : Store) : sevPreserved s s := by
  intro r hr
  exact ⟨r, hr, rfl, rfl, rfl⟩

/-- C2: an accepted submit stores the candidate at the head of the
active collection with severity exactly classifyAlertSeverity of its
heartbeat; heartbeats 121, 101, 91, 89 classify as CRITICAL, HIGH,
MEDIUM, LOW; and the other store operations (markEmailSent, delete,
cleanup) never recompute a stored record's severity. -/
theorem severity_fixed_at_save :
    (∀ (alert : AlertData) (s : Store), (saveAlert alert s).1 = true →
      (saveAlert alert s).2.active.head? =
        some { alert with severity := some (classifyAlertSeverity alert) }) ∧
    (classifyAlertSeverity (hbAlert 121) = .critical ∧
     classifyAlertSeverity (hbAlert 101) = .high ∧
     classifyAlertSeverity (hbAlert 91) = .medium ∧
     classifyAlertSeverity (hbAlert 89) = .low) ∧
    (∀ (alertId : String) (s : Store), sevPreserved s (markEmailSent alertId s).2) ∧
    (∀ (alertId : String) (writeOk : Bool) (s : Store),
      sevPreserved s (deleteAlert alertId writeOk s).2) ∧
    (∀ (parseTs : String → Int) (cutoff : Int) (s : Store),
      sevPreserved s (cleanupOldAlerts parseTs cutoff s).2) := by
  refine ⟨?_, by refine ⟨rfl, rfl, rfl, rfl⟩, ?_, ?_, ?_⟩
  · intro alert s hsave
    rcases saveAlert_cases alert s with ⟨_, heq⟩ | ⟨_, ⟨heq, _⟩ | ⟨heq, _⟩⟩
    · rw [heq] at hsave; exact absurd hsave (by simp)
    · rw [heq]; rfl
    · rw [heq]
      show (({ alert with severity := some (classifyAlertSeverity alert) }
          :: s.active).take MAX_ACTIVE_ALERTS).head? = _
      rw [show MAX_ACTIVE_ALERTS = 999 + 1 from rfl, List.take_succ_cons]
      rfl
  · intro alertId s r hr
    revert hr
    simp only [markEmailSent]
    cases hfind : s.active.findIdx? (fun alert => alert.id == alertId) with
    | none => intro hr; exact ⟨r, hr, rfl, rfl, rfl⟩
    | some i =>
      intro hr
      rcases List.mem_append.mp hr with hr1 | hr2
      · obtain ⟨r0, hr0, hids⟩ := setEmailSentAt_mem hr1
        exact ⟨r0, List.mem_append_left _ hr0, hids⟩
      · exact ⟨r, List.mem_append_right _ hr2, rfl, rfl, rfl⟩
  · intro alertId writeOk s
    cases writeOk with
    | false => exact sevPreserved_refl s
    | true =>
      intro r hr
      rcases List.mem_append.mp hr with hr1 | hr2
      · exact ⟨r, List.mem_append_left _ (List.mem_of_mem_filter hr1), rfl, rfl, rfl⟩
      · exact ⟨r, List.mem_append_right _ hr2, rfl, rfl, rfl⟩
  · intro parseTs cutoff s
    rcases cleanupOldAlerts_cases parseTs cutoff s with heq | heq
    · rw [heq]; exact sevPreserved_refl s
    · rw [heq]
      intro r hr
      rcases List.mem_append.mp hr with hr1 | hr2
      · exact ⟨r, List.mem_append_left _ (List.mem_of_mem_filter hr1), rfl, rfl, rfl⟩
      · have hr2' := (List.take_sublist _ _).mem hr2
        rcases List.mem_append.mp hr2' with hr3 | hr4
        · obtain ⟨r0, hr0, hr0eq⟩ := List.mem_map.mp hr3
          refine ⟨r0, List.mem_append_left _ (List.mem_of_mem_filter hr0), ?_⟩
          rw [← hr0eq]
          exact ⟨rfl, rfl, rfl⟩
        · exact ⟨r, List.mem_append_right _ hr4, rfl, rfl, rfl⟩

/-- Witness for C2: a concrete accepted submit stores severity MEDIUM
for heartbeat 95. -/
theorem severity_fixed_at_save_witness :
    (saveAlert wAlert emptyStore).1 = true ∧
    (saveAlert wAlert emptyStore).2.active.head? =
      some { wAlert with severity := some (classifyAlertSeverity wAlert) } := by
  exact ⟨by decide, severity_fixed_at_save.1 wAlert emptyStore (by decide)⟩

/-- C4: a successful submit that pushes the active collection past the
cap moves exactly the overflow suffix beyond MAX_ACTIVE_ALERTS — the
oldest entries, at the tail of the prepend-ordered list — into the
archive marked archived=true, keeping exactly the cap's worth of
records active; from an active collection at the cap, one more distinct
submit moves exactly one record. -/
theorem saveAlert_overflow_archives (alert : AlertData) (s : Store)
    (hdup : s.active.any (fun existing => existing.id == alert.id) = false)
    (hlen : MAX_ACTIVE_ALERTS ≤ s.active.length) :
    saveAlert alert s =
      (true,
       { active := ({ alert with severity := some (classifyAlertSeverity alert) }
            :: s.active).take MAX_ACTIVE_ALERTS,
         archived := ((({ alert with severity := some (classifyAlertSeverity alert) }
            :: s.active).drop MAX_ACTIVE_ALERTS).map markArchived
            ++ s.archived).take MAX_ARCHIVED_ALERTS }) ∧
    (saveAlert alert s).2.active.length = MAX_ACTIVE_ALERTS ∧
    (s.active.length = MAX_ACTIVE_ALERTS →
      (({ alert with severity := some (classifyAlertSeverity alert) }
          :: s.active).drop MAX_ACTIVE_ALERTS).length = 1) := by
  rcases saveAlert_cases alert s with ⟨hd, _⟩ | ⟨_, ⟨_, hle⟩ | ⟨heq, _⟩⟩
  · rw [hdup] at hd; exact absurd hd (by simp)
  · exact absurd hle (by omega)
  · refine ⟨heq, ?_, ?_⟩
    · rw [heq]
      simp only [List.length_take, List.length_cons]
      omega
    · intro h1000
      simp only [List.length_drop, List.length_cons]
      omega

/-- A store whose active collection sits exactly at the cap. -/
def wFullStore : Store := ⟨List.replicate MAX_ACTIVE_ALERTS (hbAlert 95), []⟩

set_option maxRecDepth 100000 in
/-- Witness for C4: submitting one fresh record to a store at the cap
leaves the cap's worth active and an overflow suffix of exactly one
record. -/
theorem saveAlert_overflow_archives_witness :
    wFullStore.active.any (fun existing => existing.id == wAlert.id) = false ∧
    (saveAlert wAlert wFullStore).2.active.length = MAX_ACTIVE_ALERTS ∧
    (({ wAlert with severity := some (classifyAlertSeverity wAlert) }
        :: wFullStore.active).drop MAX_ACTIVE_ALERTS).length = 1 := by
  refine ⟨by decide,
    (saveAlert_overflow_archives wAlert wFullStore (by decide) (by decide)).2.1,
    (saveAlert_overflow_archives wAlert wFullStore (by decide) (by decide)).2.2 (by decide)⟩

/-- Behavior of the detector on a single reading: an alert is
constructed and submitted exactly when the reading is critical
((panic OR fall) AND heartbeat strictly above 90) and no active record
already carries the composite id. -/
theorem detect_one (device : DeviceData) (s : Store) :
    detectCriticalAlerts [device] s =
      (if ((device.panicstatus || device.fallstatus) && device.heartbeat > 90)
          && !(s.active.any (fun alert => alert.id == device.id ++ "-" ++ device.timestamp)) then
        ([{ buildAlert device with
             severity := some (classifyAlertSeverity (buildAlert device)) }],
         (saveAlert (buildAlert device) s).2)
      else ([], s)) := by
  by_cases hcrit : ((device.panicstatus || device.fallstatus)
      && decide (device.heartbeat > 90)) = true
  · cases hfind : s.active.find? (fun alert => alert.id == device.id ++ "-" ++ device.timestamp) with
    | some x =>
      have hany : s.active.any
          (fun alert => alert.id == device.id ++ "-" ++ device.timestamp) = true := by
        rw [List.any_eq_true]
        have hx := List.find?_some hfind
        exact ⟨x, List.mem_of_find?_eq_some hfind, hx⟩
      simp [detectCriticalAlerts, hcrit, hfind, hany]
    | none =>
      have hany : s.active.any
          (fun alert => alert.id == device.id ++ "-" ++ device.timestamp) = false := by
        rw [List.any_eq_false]
        intro x hx
        exact List.find?_eq_none.mp hfind x hx
      rcases saveAlert_cases (buildAlert device) s with ⟨hd, _⟩ | ⟨_, ⟨heq, _⟩ | ⟨heq, _⟩⟩
      · have hd2 : s.active.any
            (fun alert => alert.id == device.id ++ "-" ++ device.timestamp) = true := hd
        rw [hany] at hd2
        exact absurd hd2 (by simp)
      · simp [detectCriticalAlerts, hcrit, hfind, heq, hany]
      · simp [detectCriticalAlerts, hcrit, hfind, heq, hany]
  · have hcrit' : ((device.panicstatus || device.fallstatus)
        && decide (device.heartbeat > 90)) = false := by
      revert hcrit
      cases h : ((device.panicstatus || device.fallstatus) && decide (device.heartbeat > 90)) <;>
        simp
    simp [detectCriticalAlerts, hcrit']

/-- The detector processes a batch reading-by-reading, threading the
store state from each reading to the next and concatenating the newly
created alerts in batch order. -/
theorem detect_cons (device : DeviceData) (rest : List DeviceData) (s : Store) :
    detectCriticalAlerts (device :: rest) s =
      ((detectCriticalAlerts [device] s).1
          ++ (detectCriticalAlerts rest (detectCriticalAlerts [device] s).2).1,
       (detectCriticalAlerts rest (detectCriticalAlerts [device] s).2).2) := by
  rw [detect_one device s]
  by_cases hcrit : ((device.panicstatus || device.fallstatus)
      && decide (device.heartbeat > 90)) = true
  · cases hfind : s.active.find? (fun alert => alert.id == device.id ++ "-" ++ device.timestamp) with
    | some x =>
      have hany : s.active.any
          (fun alert => alert.id == device.id ++ "-" ++ device.timestamp) = true := by
        rw [List.any_eq_true]
        have hx := List.find?_some hfind
        exact ⟨x, List.mem_of_find?_eq_some hfind, hx⟩
      simp [detectCriticalAlerts, hcrit, hfind, hany]
    | none =>
      have hany : s.active.any
          (fun alert => alert.id == device.id ++ "-" ++ device.timestamp) = false := by
        rw [List.any_eq_false]
        intro x hx
        exact List.find?_eq_none.mp hfind x hx
      rcases saveAlert_cases (buildAlert device) s with ⟨hd, _⟩ | ⟨_, ⟨heq, _⟩ | ⟨heq, _⟩⟩
      · have hd2 : s.active.any
            (fun alert => alert.id == device.id ++ "-" ++ device.timestamp) = true := hd
        rw [hany] at hd2
        exact absurd hd2 (by simp)
      · rcases hrest : detectCriticalAlerts rest (saveAlert (buildAlert device) s).2 with ⟨l, t⟩
        simp only [detectCriticalAlerts, hcrit, hfind, heq] at hrest ⊢
        simp [hany, hcrit, hrest]
      · rcases hrest : detectCriticalAlerts rest (saveAlert (buildAlert device) s).2 with ⟨l, t⟩
        simp only [detectCriticalAlerts, hcrit, hfind, heq] at hrest ⊢
        simp [hany, hcrit, hrest]
  · have hcrit' : ((device.panicstatus || device.fallstatus)
        && decide (device.heartbeat > 90)) = false := by
      revert hcrit
      cases h : ((device.panicstatus || device.fallstatus) && decide (device.heartbeat > 90)) <;>
        simp
    simp [detectCriticalAlerts, hcrit']

/-- A reading with only fallstatus set and heartbeat exactly 90. -/
def wFall90 : DeviceData :=
  { id := "dev3", timestamp := "t0", location := "ward 1", latitude := 3, longitude := 4
    panicstatus := false, fallstatus := true, heartbeat := 90 }

/-- The same reading with heartbeat 91. -/
def wFall91 : DeviceData := { wFall90 with heartbeat := 91 }

/-- A reading with both panicstatus and fallstatus set, heartbeat 95. -/
def wBoth95 : DeviceData := { wFall90 with panicstatus := true, heartbeat := 95 }

/-- C3: a reading yields a submitted alert exactly when
(panicstatus OR fallstatus) AND heartbeat > 90 AND no active record has
the composite id deviceId-timestamp; a batch is processed
reading-by-reading on the evolving store; the constructed record has
the composite id and status PANIC when panicstatus holds (even with
fallstatus also set), else FALL; fallstatus with heartbeat 90 yields no
alert while 91 yields one, and both flags yield PANIC. -/
theorem detector_threshold_and_tiebreak :
    (∀ (device : DeviceData) (s : Store),
      detectCriticalAlerts [device] s =
        (if ((device.panicstatus || device.fallstatus) && device.heartbeat > 90)
            && !(s.active.any (fun alert => alert.id == device.id ++ "-" ++ device.timestamp)) then
          ([{ buildAlert device with
               severity := some (classifyAlertSeverity (buildAlert device)) }],
           (saveAlert (buildAlert device) s).2)
        else ([], s))) ∧
    (∀ (device : DeviceData) (rest : List DeviceData) (s : Store),
      detectCriticalAlerts (device :: rest) s =
        ((detectCriticalAlerts [device] s).1
            ++ (detectCriticalAlerts rest (detectCriticalAlerts [device] s).2).1,
         (detectCriticalAlerts rest (detectCriticalAlerts [device] s).2).2)) ∧
    (∀ device : DeviceData,
      (buildAlert device).id = device.id ++ "-" ++ device.timestamp ∧
      (buildAlert device).status = (if device.panicstatus then .panic else .fall)) ∧
    detectCriticalAlerts [wFall90] emptyStore = ([], emptyStore) ∧
    ((detectCriticalAlerts [wFall91] emptyStore).1.map (fun r => r.status) = [.fall] ∧
      (detectCriticalAlerts [wFall91] emptyStore).1.length = 1) ∧
    ((detectCriticalAlerts [wBoth95] emptyStore).1.map (fun r => r.status) = [.panic] ∧
      (detectCriticalAlerts [wBoth95] emptyStore).1.length = 1) := by
  refine ⟨detect_one, detect_cons, fun device => ⟨rfl, rfl⟩, by decide, ⟨by decide, by decide⟩,
    ⟨by decide, by decide⟩⟩

/-- A single applied store operation preserves uniqueness of ids within
the active collection. -/
theorem applyOp_active_ids_nodup (op : StoreOp) (s : Store)
    (h : (s.active.map (fun r => r.id)).Nodup) :
    ((applyOp op s).active.map (fun r => r.id)).Nodup := by
  cases op with
  | save alert =>
    rcases saveAlert_cases alert s with ⟨_, heq⟩ | ⟨hdup, ⟨heq, _⟩ | ⟨heq, _⟩⟩
    · simpa [applyOp, heq] using h
    · have hnotmem : alert.id ∉ s.active.map (fun r => r.id) := by
        intro hmem
        obtain ⟨r, hr, hrid⟩ := List.mem_map.mp hmem
        have := List.any_eq_false.mp hdup r hr
        simp [hrid] at this
      simp only [applyOp, heq, List.map_cons, List.nodup_cons]
      exact ⟨hnotmem, h⟩
    · have hnotmem : alert.id ∉ s.active.map (fun r => r.id) := by
        intro hmem
        obtain ⟨r, hr, hrid⟩ := List.mem_map.mp hmem
        have := List.any_eq_false.mp hdup r hr
        simp [hrid] at this
      simp only [applyOp, heq]
      rw [List.map_take]
      refine (List.take_sublist _ _).nodup ?_
      simp only [List.map_cons, List.nodup_cons]
      exact ⟨hnotmem, h⟩
  | archive alerts => simpa [applyOp, archiveAlerts] using h
  | delete alertId writeOk =>
    cases writeOk with
    | false => exact h
    | true =>
      simp only [applyOp, deleteAlert]
      exact ((List.filter_sublist _).map _).nodup h
  | cleanup parseTs cutoff =>
    rcases cleanupOldAlerts_cases parseTs cutoff s with heq | heq <;> simp only [applyOp, heq]
    · exact h
    · exact ((List.filter_sublist _).map _).nodup h
  | markEmail alertId =>
    simp only [applyOp, markEmailSent]
    cases hfind : s.active.findIdx? (fun alert => alert.id == alertId) with
    | none => exact h
    | some i =>
      simp only
      rw [setEmailSentAt_map (fun r => r.id) (fun r => rfl)]
      exact h
  | clearActive => simp [applyOp, clearAllAlerts]
  | clearArchived => simpa [applyOp, clearArchivedAlerts] using h

/-- Sequences of operations preserve uniqueness of ids within the
active collection. -/
theorem runOps_active_ids_nodup :
    ∀ (ops : List StoreOp) (s : Store), (s.active.map (fun r => r.id)).Nodup →
      ((runOps ops s).active.map (fun r => r.id)).Nodup := by
  intro ops
  induction ops with
  | nil => intro s h; exact h
  | cons op rest ih => intro s h; exact ih _ (applyOp_active_ids_nodup op s h)

/-- C6 counterexample: ids are not unique across the union of active
and archived. Submitting wAlert, archiving it via cleanup and
re-submitting it — three operations the claim quantifies over — leaves
its id once in the active and once in the archived collection. -/
theorem union_id_uniqueness_cex :
    ¬ ((((runOps [.save wAlert, .cleanup (fun _ => 0) 1, .save wAlert] emptyStore).active
        ++ (runOps [.save wAlert, .cleanup (fun _ => 0) 1, .save wAlert] emptyStore).archived).map
          (fun r => r.id)).Nodup) := by
  decide

/-- C6 amended: in every state reachable from fresh storage by the
store's operations, each id occurs at most once within the ACTIVE
collection; uniqueness over the union of active and archived does not
hold, because saveAlert checks only the active collection, so a record
archived by overflow or cleanup can be resubmitted. -/
theorem active_ids_unique_reachable (ops : List StoreOp) :
    ((runOps ops emptyStore).active.map (fun r => r.id)).Nodup :=
  runOps_active_ids_nodup ops emptyStore (by simp [emptyStore])
